import Mathlib

/-!
Verification of the remote-process multiplexing layer in
`src/vs/editor/contrib/rtv/remote/RTVUtils.ts`.

The TypeScript source is shallowly embedded: each process class becomes a
Lean structure holding the class's mutable fields, and each method becomes a
pure function from the old state to the new state paired with the list of
observer invocations (`Event`s) the method performs.  The shared worker
channel is modelled by a `deliver` function that runs the registered
`eventListener` only while the listener is registered (`listening`),
mirroring `addEventListener` / `removeEventListener`.
-/

/-- `ResponseType` enum from the source. -/
inductive ResponseType where
  | STDOUT
  | STDERR
  | RESULT
  | EXCEPTION
  | ERROR
  | LOADED
deriving DecidableEq, Repr

/-- `RequestType` enum from the source. -/
inductive RequestType where
  | RUNPY
  | IMGSUM
deriving DecidableEq, Repr

/-- `PyodideWorkerResponse`: an inbound envelope on the shared channel. -/
structure PyodideWorkerResponse where
  id : Nat
  type : ResponseType
  msg : String
deriving DecidableEq, Repr

/-- `RunpyWorkerRequest` (its `type` field is always `RUNPY`). -/
structure RunpyWorkerRequest where
  id : Nat
  name : String
  content : String
deriving DecidableEq, Repr

/-- `ImgSumWorkerRequest` (its `type` field is always `IMGSUM`). -/
structure ImgSumWorkerRequest where
  id : Nat
  name : String
  content : String
  line : Nat
  varname : String
deriving DecidableEq, Repr

/-- An outbound envelope posted on the shared channel. -/
inductive WorkerRequest where
  | runpy : RunpyWorkerRequest → WorkerRequest
  | imgsum : ImgSumWorkerRequest → WorkerRequest
deriving DecidableEq, Repr

/-- The JavaScript value passed as `exitCode` to an exit observer:
`0`/`1` are numbers, `null` is the JS null passed by `RunpyProcess` on
failure. -/
inductive ExitCode where
  | num : Nat → ExitCode
  | null : ExitCode
deriving DecidableEq, Repr

/-- An observer invocation performed by a process method: a call to the
registered `onOutput`, `onError`, or exit (`fn`) callback, with its
arguments. -/
inductive Event where
  | outputCall : String → Event
  | errorCall : String → Event
  | exitCall : ExitCode → String → Event
deriving DecidableEq, Repr

/-- `IDGenerator.getId`: returns the current counter and the incremented
counter (`this.next++`). -/
def IDGenerator.getId (next : Nat) : Nat × Nat :=
  (next, next + 1)

/-- JavaScript truthiness of the optional `this.result` string field:
truthy exactly when present and non-empty. -/
def resultTruthy : Option String → Bool
  | none => false
  | some r => r != ""

/-- The mutable fields of a `RunpyProcess` instance, plus `listening`,
which records whether its `eventListener` is currently registered on the
shared channel. -/
structure RunpyProcess where
  id : Nat
  onResultSet : Bool
  onOutputSet : Bool
  onErrorSet : Bool
  result : Option String
  error : String
  output : String
  killed : Bool
  listening : Bool
deriving DecidableEq, Repr

/-- A fresh `RunpyProcess` as built by the constructor (before which the
request envelope is posted): listener registered, everything else empty. -/
def RunpyProcess.create (id : Nat) : RunpyProcess :=
  { id := id, onResultSet := false, onOutputSet := false, onErrorSet := false,
    result := none, error := "", output := "", killed := false, listening := true }

/-- The body of the wrapper that `RunpyProcess.onExit` stores into
`this.onResult`: deliver the buffered stdout and stderr to the registered
output observers, then call `fn` with `0` when the result text is
non-empty and `null` otherwise. Only invoked when `onResultSet` holds. -/
def RunpyProcess.fireOnResult (p : RunpyProcess) (r : String) : List Event :=
  (if p.onOutputSet then [Event.outputCall p.output] else []) ++
  (if p.onErrorSet then [Event.errorCall p.error] else []) ++
  [Event.exitCall (if r != "" then ExitCode.num 0 else ExitCode.null) r]

/-- The `eventListener` closure of `RunpyProcess`: ignore envelopes with a
different id; on `RESULT` store the result and invoke `this.onResult` if
set; on `STDOUT` append to the output buffer; on `STDERR`/`EXCEPTION`
append to the error buffer; ignore the rest. -/
def RunpyProcess.eventListener (p : RunpyProcess) (msg : PyodideWorkerResponse) :
    RunpyProcess × List Event :=
  if msg.id != p.id then (p, [])
  else
    match msg.type with
    | ResponseType.RESULT =>
        let p' := { p with result := some msg.msg }
        (p', if p'.onResultSet then p'.fireOnResult msg.msg else [])
    | ResponseType.STDOUT => ({ p with output := p.output ++ msg.msg }, [])
    | ResponseType.STDERR => ({ p with error := p.error ++ msg.msg }, [])
    | ResponseType.EXCEPTION => ({ p with error := p.error ++ msg.msg }, [])
    | _ => (p, [])

/-- Delivery of a channel envelope to this process: the listener runs only
while it is registered. -/
def RunpyProcess.deliver (p : RunpyProcess) (msg : PyodideWorkerResponse) :
    RunpyProcess × List Event :=
  if p.listening then p.eventListener msg else (p, [])

/-- `RunpyProcess.onStdout`: store the observer; no replay. -/
def RunpyProcess.onStdout (p : RunpyProcess) : RunpyProcess :=
  { p with onOutputSet := true }

/-- `RunpyProcess.onStderr`: store the observer; no replay. -/
def RunpyProcess.onStderr (p : RunpyProcess) : RunpyProcess :=
  { p with onErrorSet := true }

/-- `RunpyProcess.kill`: set `killed`, deregister the listener, and if an
exit wrapper is registered invoke it with the empty string.  Note the
source does not set `this.result`. -/
def RunpyProcess.kill (p : RunpyProcess) : RunpyProcess × List Event :=
  let p' := { p with killed := true, listening := false }
  (p', if p'.onResultSet then p'.fireOnResult "" else [])

/-- `RunpyProcess.onExit`: store the wrapper into `this.onResult`, then
`if (this.result)` (truthy: present and non-empty) fire it with the stored
result, `else if (this.killed)` fire it with the empty string. -/
def RunpyProcess.onExit (p : RunpyProcess) : RunpyProcess × List Event :=
  let p' := { p with onResultSet := true }
  if resultTruthy p'.result then (p', p'.fireOnResult (p'.result.getD ""))
  else if p'.killed then (p', p'.fireOnResult "")
  else (p', [])

/-- The mutable fields of an `ImgSummaryProcess` instance (no `killed`
flag in the source), plus `listening` for its channel registration. -/
structure ImgSummaryProcess where
  id : Nat
  onResultSet : Bool
  onOutputSet : Bool
  onErrorSet : Bool
  result : Option String
  error : String
  output : String
  listening : Bool
deriving DecidableEq, Repr

/-- A fresh `ImgSummaryProcess` as built by the constructor. -/
def ImgSummaryProcess.create (id : Nat) : ImgSummaryProcess :=
  { id := id, onResultSet := false, onOutputSet := false, onErrorSet := false,
    result := none, error := "", output := "", listening := true }

/-- The wrapper `ImgSummaryProcess.onExit` stores into `this.onResult`:
call `fn` with `0` when the result text is non-empty and with `1`
otherwise. -/
def ImgSummaryProcess.fireOnResult (r : String) : List Event :=
  [Event.exitCall (if r != "" then ExitCode.num 0 else ExitCode.num 1) r]

/-- The `eventListener` closure of `ImgSummaryProcess`: ignore envelopes
with a different id; on `RESULT` store and invoke the exit wrapper if
set; on `STDOUT`/`STDERR`/`EXCEPTION` append to the buffer and forward
the chunk immediately to the registered observer. -/
def ImgSummaryProcess.eventListener (p : ImgSummaryProcess)
    (msg : PyodideWorkerResponse) : ImgSummaryProcess × List Event :=
  if msg.id != p.id then (p, [])
  else
    match msg.type with
    | ResponseType.RESULT =>
        let p' := { p with result := some msg.msg }
        (p', if p'.onResultSet then ImgSummaryProcess.fireOnResult msg.msg else [])
    | ResponseType.STDOUT =>
        ({ p with output := p.output ++ msg.msg },
         if p.onOutputSet then [Event.outputCall msg.msg] else [])
    | ResponseType.STDERR =>
        ({ p with error := p.error ++ msg.msg },
         if p.onErrorSet then [Event.errorCall msg.msg] else [])
    | ResponseType.EXCEPTION =>
        ({ p with error := p.error ++ msg.msg },
         if p.onErrorSet then [Event.errorCall msg.msg] else [])
    | _ => (p, [])

/-- Delivery of a channel envelope to this process: the listener runs only
while it is registered. -/
def ImgSummaryProcess.deliver (p : ImgSummaryProcess)
    (msg : PyodideWorkerResponse) : ImgSummaryProcess × List Event :=
  if p.listening then p.eventListener msg else (p, [])

/-- `ImgSummaryProcess.onStdout`: store the observer, and if the stdout
buffer is truthy (non-empty) replay it immediately. -/
def ImgSummaryProcess.onStdout (p : ImgSummaryProcess) :
    ImgSummaryProcess × List Event :=
  let p' := { p with onOutputSet := true }
  (p', if p'.output != "" then [Event.outputCall p'.output] else [])

/-- `ImgSummaryProcess.onStderr`: store the observer, and if the stderr
buffer is truthy (non-empty) replay it immediately. -/
def ImgSummaryProcess.onStderr (p : ImgSummaryProcess) :
    ImgSummaryProcess × List Event :=
  let p' := { p with onErrorSet := true }
  (p', if p'.error != "" then [Event.errorCall p'.error] else [])

/-- `ImgSummaryProcess.kill`: deregister the listener; nothing else. -/
def ImgSummaryProcess.kill (p : ImgSummaryProcess) :
    ImgSummaryProcess × List Event :=
  ({ p with listening := false }, [])

/-- `ImgSummaryProcess.onExit`: store the wrapper, then `if (this.result)`
(truthy) fire it with the stored result; there is no `killed` branch. -/
def ImgSummaryProcess.onExit (p : ImgSummaryProcess) :
    ImgSummaryProcess × List Event :=
  let p' := { p with onResultSet := true }
  if resultTruthy p'.result then (p', ImgSummaryProcess.fireOnResult (p'.result.getD ""))
  else (p', [])

/-- `SynthProcess.onStdout`: a no-op. -/
def SynthProcess.onStdout (p : Unit) : Unit × List Event := (p, [])

/-- `SynthProcess.onStderr`: a no-op. -/
def SynthProcess.onStderr (p : Unit) : Unit × List Event := (p, [])

/-- `SynthProcess.kill`: a no-op. -/
def SynthProcess.kill (p : Unit) : Unit × List Event := (p, [])

/-- `SynthProcess.onExit`: stores nothing and never invokes `fn`. -/
def SynthProcess.onExit (p : Unit) : Unit × List Event := (p, [])

/-- The process handle a factory operation returns. -/
inductive ProcessHandle where
  | synth : ProcessHandle
  | runpy : RunpyProcess → ProcessHandle
  | imgsum : ImgSummaryProcess → ProcessHandle
deriving DecidableEq, Repr

/-- The module-level mutable state: the `pyodideLoaded` readiness flag and
the `idGen` counter. -/
structure GlobalState where
  pyodideLoaded : Bool
  nextId : Nat
deriving DecidableEq, Repr

/-- `runProgram`: when the readiness gate is closed return a `SynthProcess`
and post nothing; otherwise take a fresh id, construct a `RunpyProcess`
(registering its listener) and post the `RunpyWorkerRequest`. -/
def runProgram (g : GlobalState) (program : String) :
    ProcessHandle × GlobalState × List WorkerRequest :=
  if !g.pyodideLoaded then (ProcessHandle.synth, g, [])
  else
    let (id, next') := IDGenerator.getId g.nextId
    (ProcessHandle.runpy (RunpyProcess.create id),
     { g with nextId := next' },
     [WorkerRequest.runpy ⟨id, "program_" ++ toString id ++ ".py", program⟩])

/-- `runImgSummary`: when the readiness gate is closed return a
`SynthProcess` and post nothing; otherwise construct an
`ImgSummaryProcess` and post the `ImgSumWorkerRequest`. -/
def runImgSummary (g : GlobalState) (program : String) (line : Nat)
    (varname : String) : ProcessHandle × GlobalState × List WorkerRequest :=
  if !g.pyodideLoaded then (ProcessHandle.synth, g, [])
  else
    let (id, next') := IDGenerator.getId g.nextId
    (ProcessHandle.imgsum (ImgSummaryProcess.create id),
     { g with nextId := next' },
     [WorkerRequest.imgsum ⟨id, "imgsum_" ++ toString id ++ ".py", program, line, varname⟩])

/-- An atomic interaction with a `RunpyProcess`: a channel delivery or one
of its public method calls. -/
inductive RunpyAction where
  | deliver : PyodideWorkerResponse → RunpyAction
  | onStdout : RunpyAction
  | onStderr : RunpyAction
  | kill : RunpyAction
  | onExit : RunpyAction
deriving DecidableEq, Repr

/-- Run one `RunpyAction`. -/
def RunpyProcess.step (p : RunpyProcess) : RunpyAction → RunpyProcess × List Event
  | RunpyAction.deliver msg => p.deliver msg
  | RunpyAction.onStdout => (p.onStdout, [])
  | RunpyAction.onStderr => (p.onStderr, [])
  | RunpyAction.kill => p.kill
  | RunpyAction.onExit => p.onExit

/-- Run a sequence of `RunpyAction`s, concatenating the emitted events. -/
def RunpyProcess.run (p : RunpyProcess) : List RunpyAction → RunpyProcess × List Event
  | [] => (p, [])
  | a :: as =>
      let s := p.step a
      let t := s.1.run as
      (t.1, s.2 ++ t.2)

/-- An atomic interaction with an `ImgSummaryProcess`. -/
inductive ImgAction where
  | deliver : PyodideWorkerResponse → ImgAction
  | onStdout : ImgAction
  | onStderr : ImgAction
  | kill : ImgAction
  | onExit : ImgAction
deriving DecidableEq, Repr

/-- Run one `ImgAction`. -/
def ImgSummaryProcess.step (p : ImgSummaryProcess) :
    ImgAction → ImgSummaryProcess × List Event
  | ImgAction.deliver msg => p.deliver msg
  | ImgAction.onStdout => p.onStdout
  | ImgAction.onStderr => p.onStderr
  | ImgAction.kill => p.kill
  | ImgAction.onExit => p.onExit

/-- Run a sequence of `ImgAction`s, concatenating the emitted events. -/
def ImgSummaryProcess.run (p : ImgSummaryProcess) :
    List ImgAction → ImgSummaryProcess × List Event
  | [] => (p, [])
  | a :: as =>
      let s := p.step a
      let t := s.1.run as
      (t.1, s.2 ++ t.2)

/-- Whether an event is an exit-observer invocation. -/
def Event.isExit : Event → Bool
  | Event.exitCall _ _ => true
  | _ => false

/-- The number of exit-observer invocations in an event list. -/
def exitCount (evs : List Event) : Nat :=
  (evs.filter Event.isExit).length

/-! ### Helper lemmas -/

lemma exitCount_nil : exitCount [] = 0 := rfl

lemma exitCount_append (xs ys : List Event) :
    exitCount (xs ++ ys) = exitCount xs + exitCount ys := by
  simp [exitCount, List.filter_append]

lemma exitCall_mem_runpy_fireOnResult (p : RunpyProcess) (r : String) :
    Event.exitCall (if r != "" then ExitCode.num 0 else ExitCode.null) r
      ∈ p.fireOnResult r := by
  simp [RunpyProcess.fireOnResult]

lemma exitCount_runpy_fireOnResult (p : RunpyProcess) (r : String) :
    exitCount (p.fireOnResult r) = 1 := by
  cases ho : p.onOutputSet <;> cases he : p.onErrorSet <;>
    simp [RunpyProcess.fireOnResult, exitCount, Event.isExit, ho, he]

lemma exitCount_img_fireOnResult (r : String) :
    exitCount (ImgSummaryProcess.fireOnResult r) = 1 := by
  simp [ImgSummaryProcess.fireOnResult, exitCount, Event.isExit]

lemma runpy_fire_exit_eq (p : RunpyProcess) (s : String) (c : ExitCode) (r : String)
    (h : Event.exitCall c r ∈ p.fireOnResult s) :
    c = (if s = "" then ExitCode.null else ExitCode.num 0) ∧ r = s := by
  cases ho : p.onOutputSet <;> cases he : p.onErrorSet <;>
    simp [RunpyProcess.fireOnResult, ho, he] at h <;> exact h

lemma img_fire_exit_eq (s : String) (c : ExitCode) (r : String)
    (h : Event.exitCall c r ∈ ImgSummaryProcess.fireOnResult s) :
    c = (if s = "" then ExitCode.num 1 else ExitCode.num 0) ∧ r = s := by
  simp [ImgSummaryProcess.fireOnResult] at h
  exact h

lemma exitCount_pos_of_mem (evs : List Event) (c : ExitCode) (r : String)
    (h : Event.exitCall c r ∈ evs) : exitCount evs ≠ 0 := by
  intro hc
  have hmem : Event.exitCall c r ∈ evs.filter Event.isExit :=
    List.mem_filter.2 ⟨h, rfl⟩
  have hempty : evs.filter Event.isExit = [] :=
    List.length_eq_zero.1 hc
  rw [hempty] at hmem
  cases hmem

lemma runpy_step_events (p : RunpyProcess) (a : RunpyAction) :
    (p.step a).2 = [] ∨
    ∃ p' : RunpyProcess, ∃ s : String, (p.step a).2 = p'.fireOnResult s := by
  cases a with
  | deliver msg =>
      by_cases hl : p.listening
      · obtain ⟨i, t, m⟩ := msg
        cases hid : (i != p.id) with
        | true =>
            left
            simp [RunpyProcess.step, RunpyProcess.deliver, RunpyProcess.eventListener,
              hl, hid]
        | false =>
            cases t <;>
              simp [RunpyProcess.step, RunpyProcess.deliver, RunpyProcess.eventListener,
                hl, hid]
            cases hs : p.onResultSet with
            | true =>
                right
                refine ⟨{ p with result := some m }, m, ?_⟩
                simp [RunpyProcess.fireOnResult, hs]
            | false => left; simp [hs]
      · left; simp [RunpyProcess.step, RunpyProcess.deliver, hl]
  | onStdout => left; rfl
  | onStderr => left; rfl
  | kill =>
      cases hs : p.onResultSet with
      | true =>
          right
          refine ⟨{ p with killed := true, listening := false }, "", ?_⟩
          simp [RunpyProcess.step, RunpyProcess.kill, RunpyProcess.fireOnResult, hs]
      | false => left; simp [RunpyProcess.step, RunpyProcess.kill, hs]
  | onExit =>
      by_cases ht : resultTruthy p.result
      · right
        refine ⟨{ p with onResultSet := true }, p.result.getD "", ?_⟩
        simp [RunpyProcess.step, RunpyProcess.onExit, ht]
      · by_cases hk : p.killed
        · right
          refine ⟨{ p with onResultSet := true }, "", ?_⟩
          simp [RunpyProcess.step, RunpyProcess.onExit, ht, hk]
        · left
          simp [RunpyProcess.step, RunpyProcess.onExit, ht, hk]

lemma img_step_events (q : ImgSummaryProcess) (a : ImgAction) :
    exitCount (q.step a).2 = 0 ∨
    ∃ s : String, (q.step a).2 = ImgSummaryProcess.fireOnResult s := by
  cases a with
  | deliver msg =>
      by_cases hl : q.listening
      · obtain ⟨i, t, m⟩ := msg
        cases hid : (i != q.id) with
        | true =>
            left
            simp [ImgSummaryProcess.step, ImgSummaryProcess.deliver,
              ImgSummaryProcess.eventListener, hl, hid, exitCount]
        | false =>
            cases t with
            | RESULT =>
                cases hs : q.onResultSet with
                | true =>
                    right
                    refine ⟨m, ?_⟩
                    simp [ImgSummaryProcess.step, ImgSummaryProcess.deliver,
                      ImgSummaryProcess.eventListener, hl, hid, hs]
                | false =>
                    left
                    simp [ImgSummaryProcess.step, ImgSummaryProcess.deliver,
                      ImgSummaryProcess.eventListener, hl, hid, hs, exitCount]
            | _ =>
                left
                cases ho : q.onOutputSet <;> cases he : q.onErrorSet <;>
                  simp [ImgSummaryProcess.step, ImgSummaryProcess.deliver,
                    ImgSummaryProcess.eventListener, hl, hid, ho, he,
                    exitCount, Event.isExit]
      · left
        simp [ImgSummaryProcess.step, ImgSummaryProcess.deliver, hl, exitCount]
  | onStdout =>
      left
      by_cases h : q.output != ""
      · simp [ImgSummaryProcess.step, ImgSummaryProcess.onStdout, h,
          exitCount, Event.isExit]
      · simp [ImgSummaryProcess.step, ImgSummaryProcess.onStdout, h,
          exitCount, Event.isExit]
  | onStderr =>
      left
      by_cases h : q.error != ""
      · simp [ImgSummaryProcess.step, ImgSummaryProcess.onStderr, h,
          exitCount, Event.isExit]
      · simp [ImgSummaryProcess.step, ImgSummaryProcess.onStderr, h,
          exitCount, Event.isExit]
  | kill =>
      left
      simp [ImgSummaryProcess.step, ImgSummaryProcess.kill, exitCount]
  | onExit =>
      by_cases ht : resultTruthy q.result
      · right
        refine ⟨q.result.getD "", ?_⟩
        simp [ImgSummaryProcess.step, ImgSummaryProcess.onExit, ht]
      · left
        simp [ImgSummaryProcess.step, ImgSummaryProcess.onExit, ht, exitCount]

lemma img_step_result_none (q : ImgSummaryProcess) (a : ImgAction)
    (hne : ∀ msg : PyodideWorkerResponse, a = ImgAction.deliver msg →
      msg.type ≠ ResponseType.RESULT) :
    (q.step a).1.result = q.result := by
  cases a with
  | deliver msg =>
      by_cases hl : q.listening
      · obtain ⟨i, t, m⟩ := msg
        cases hid : (i != q.id) with
        | true =>
            simp [ImgSummaryProcess.step, ImgSummaryProcess.deliver,
              ImgSummaryProcess.eventListener, hl, hid]
        | false =>
            cases t with
            | RESULT => exact absurd rfl (hne ⟨i, ResponseType.RESULT, m⟩ rfl)
            | _ =>
                simp [ImgSummaryProcess.step, ImgSummaryProcess.deliver,
                  ImgSummaryProcess.eventListener, hl, hid]
      · simp [ImgSummaryProcess.step, ImgSummaryProcess.deliver, hl]
  | onStdout => simp [ImgSummaryProcess.step, ImgSummaryProcess.onStdout]
  | onStderr => simp [ImgSummaryProcess.step, ImgSummaryProcess.onStderr]
  | kill => simp [ImgSummaryProcess.step, ImgSummaryProcess.kill]
  | onExit =>
      by_cases ht : resultTruthy q.result <;>
        simp [ImgSummaryProcess.step, ImgSummaryProcess.onExit, ht]

lemma img_step_listening (q : ImgSummaryProcess) (a : ImgAction)
    (ha : a ≠ ImgAction.kill) :
    (q.step a).1.listening = q.listening := by
  cases a with
  | deliver msg =>
      by_cases hl : q.listening
      · obtain ⟨i, t, m⟩ := msg
        cases hid : (i != q.id) with
        | true =>
            simp [ImgSummaryProcess.step, ImgSummaryProcess.deliver,
              ImgSummaryProcess.eventListener, hl, hid]
        | false =>
            cases t <;>
              simp [ImgSummaryProcess.step, ImgSummaryProcess.deliver,
                ImgSummaryProcess.eventListener, hl, hid]
      · simp [ImgSummaryProcess.step, ImgSummaryProcess.deliver, hl]
  | onStdout => simp [ImgSummaryProcess.step, ImgSummaryProcess.onStdout]
  | onStderr => simp [ImgSummaryProcess.step, ImgSummaryProcess.onStderr]
  | kill => exact absurd rfl ha
  | onExit =>
      by_cases ht : resultTruthy q.result <;>
        simp [ImgSummaryProcess.step, ImgSummaryProcess.onExit, ht]

lemma img_dead_step (q : ImgSummaryProcess) (a : ImgAction)
    (hl : q.listening = false) (hr : resultTruthy q.result = false) :
    exitCount (q.step a).2 = 0 ∧ (q.step a).1.listening = false ∧
    resultTruthy (q.step a).1.result = false := by
  cases a with
  | deliver msg =>
      simp [ImgSummaryProcess.step, ImgSummaryProcess.deliver, hl, hr, exitCount]
  | onStdout =>
      refine ⟨?_, ?_, ?_⟩ <;>
        by_cases h : q.output != "" <;>
          simp [ImgSummaryProcess.step, ImgSummaryProcess.onStdout, h,
            exitCount, Event.isExit, hl, hr]
  | onStderr =>
      refine ⟨?_, ?_, ?_⟩ <;>
        by_cases h : q.error != "" <;>
          simp [ImgSummaryProcess.step, ImgSummaryProcess.onStderr, h,
            exitCount, Event.isExit, hl, hr]
  | kill =>
      simp [ImgSummaryProcess.step, ImgSummaryProcess.kill, exitCount, hr]
  | onExit =>
      simp [ImgSummaryProcess.step, ImgSummaryProcess.onExit, hr, exitCount, hl]

lemma img_dead_run (q : ImgSummaryProcess) (bs : List ImgAction)
    (hl : q.listening = false) (hr : resultTruthy q.result = false) :
    exitCount (q.run bs).2 = 0 := by
  induction bs generalizing q with
  | nil => rfl
  | cons a as ih =>
      obtain ⟨h1, h2, h3⟩ := img_dead_step q a hl hr
      simp [ImgSummaryProcess.run, exitCount_append, h1, ih _ h2 h3]

lemma img_noResult_run (q : ImgSummaryProcess) (as : List ImgAction)
    (ha : ∀ a ∈ as, ∀ msg : PyodideWorkerResponse,
      a = ImgAction.deliver msg → msg.type ≠ ResponseType.RESULT)
    (hr : q.result = none) :
    (q.run as).1.result = none ∧ exitCount (q.run as).2 = 0 := by
  induction as generalizing q with
  | nil => exact ⟨hr, rfl⟩
  | cons a as ih =>
      have hres : (q.step a).1.result = q.result :=
        img_step_result_none q a (ha a (List.mem_cons_self a as))
      have hstep : exitCount (q.step a).2 = 0 := by
        rcases img_step_events q a with h | ⟨s, h⟩
        · exact h
        · exfalso
          have : Event.exitCall
              (if s = "" then ExitCode.num 1 else ExitCode.num 0) s ∈ (q.step a).2 := by
            rw [h]
            simp [ImgSummaryProcess.fireOnResult]
          -- an exit event can only come from a RESULT delivery or a truthy
          -- stored result; rule both out
          cases a with
          | deliver msg =>
              obtain ⟨i, t, m⟩ := msg
              by_cases hl : q.listening
              · cases hid : (i != q.id) with
                | true =>
                    rw [ImgSummaryProcess.step, ImgSummaryProcess.deliver] at h
                    simp [hl, ImgSummaryProcess.eventListener, hid,
                      ImgSummaryProcess.fireOnResult] at h
                | false =>
                    cases t with
                    | RESULT =>
                        exact (ha _ (List.mem_cons_self _ _) ⟨i, ResponseType.RESULT, m⟩
                          rfl) rfl
                    | _ =>
                        rw [ImgSummaryProcess.step, ImgSummaryProcess.deliver] at h
                        cases ho : q.onOutputSet <;> cases he : q.onErrorSet <;>
                          simp [hl, ImgSummaryProcess.eventListener, hid, ho, he,
                            ImgSummaryProcess.fireOnResult] at h
              · rw [ImgSummaryProcess.step, ImgSummaryProcess.deliver] at h
                simp [hl, ImgSummaryProcess.fireOnResult] at h
          | onStdout =>
              rw [ImgSummaryProcess.step, ImgSummaryProcess.onStdout] at h
              by_cases ho : q.output != "" <;>
                simp [ho, ImgSummaryProcess.fireOnResult] at h
          | onStderr =>
              rw [ImgSummaryProcess.step, ImgSummaryProcess.onStderr] at h
              by_cases he : q.error != "" <;>
                simp [he, ImgSummaryProcess.fireOnResult] at h
          | kill =>
              rw [ImgSummaryProcess.step, ImgSummaryProcess.kill] at h
              simp [ImgSummaryProcess.fireOnResult] at h
          | onExit =>
              rw [ImgSummaryProcess.step, ImgSummaryProcess.onExit] at h
              simp [resultTruthy, hr, ImgSummaryProcess.fireOnResult] at h
      have htail := ih (q.step a).1
        (fun b hb msg hbm => ha b (List.mem_cons_of_mem a hb) msg hbm)
        (by rw [hres, hr])
      constructor
      · simpa [ImgSummaryProcess.run] using htail.1
      · simp [ImgSummaryProcess.run, exitCount_append, hstep, htail.2]

/-- An action on a `RunpyProcess` that neither kills it, re-registers the
exit observer, nor delivers a matching `RESULT` envelope. -/
def RunpyAction.benign (id : Nat) : RunpyAction → Bool
  | RunpyAction.deliver msg => !(msg.id == id && msg.type == ResponseType.RESULT)
  | RunpyAction.kill => false
  | RunpyAction.onExit => false
  | _ => true

lemma runpy_benign_step (p : RunpyProcess) (a : RunpyAction)
    (hb : RunpyAction.benign p.id a = true) :
    exitCount (p.step a).2 = 0 ∧ (p.step a).1.id = p.id ∧
    (p.step a).1.listening = p.listening ∧
    (p.step a).1.onResultSet = p.onResultSet := by
  cases a with
  | deliver msg =>
      by_cases hl : p.listening
      · obtain ⟨i, t, m⟩ := msg
        cases hid : (i != p.id) with
        | true =>
            simp [RunpyProcess.step, RunpyProcess.deliver, RunpyProcess.eventListener,
              hl, hid, exitCount]
        | false =>
            have hieq : i = p.id := by
              simpa using hid
            cases t with
            | RESULT =>
                exfalso
                simp [RunpyAction.benign, hieq] at hb
            | _ =>
                simp [RunpyProcess.step, RunpyProcess.deliver,
                  RunpyProcess.eventListener, hl, hid, exitCount]
      · simp [RunpyProcess.step, RunpyProcess.deliver, hl, exitCount]
  | onStdout => simp [RunpyProcess.step, RunpyProcess.onStdout, exitCount]
  | onStderr => simp [RunpyProcess.step, RunpyProcess.onStderr, exitCount]
  | kill => simp [RunpyAction.benign] at hb
  | onExit => simp [RunpyAction.benign] at hb

lemma runpy_benign_run (p : RunpyProcess) (as : List RunpyAction)
    (hb : ∀ a ∈ as, RunpyAction.benign p.id a = true) :
    exitCount (p.run as).2 = 0 ∧ (p.run as).1.id = p.id ∧
    (p.run as).1.listening = p.listening ∧
    (p.run as).1.onResultSet = p.onResultSet := by
  induction as generalizing p with
  | nil => exact ⟨rfl, rfl, rfl, rfl⟩
  | cons a as ih =>
      obtain ⟨h1, h2, h3, h4⟩ := runpy_benign_step p a (hb a (List.mem_cons_self a as))
      have htail := ih (p.step a).1
        (fun b hbmem => h2 ▸ hb b (List.mem_cons_of_mem a hbmem))
      refine ⟨?_, ?_, ?_, ?_⟩
      · simp [RunpyProcess.run, exitCount_append, h1, htail.1]
      · simpa [RunpyProcess.run, h2] using htail.2.1.trans h2
      · simpa [RunpyProcess.run, h3] using htail.2.2.1.trans h3
      · simpa [RunpyProcess.run, h4] using htail.2.2.2.trans h4

lemma runpy_run_append (p : RunpyProcess) (as bs : List RunpyAction) :
    p.run (as ++ bs) =
      (((p.run as).1.run bs).1, (p.run as).2 ++ ((p.run as).1.run bs).2) := by
  induction as generalizing p with
  | nil => simp [RunpyProcess.run]
  | cons a as ih => simp [RunpyProcess.run, ih]

lemma runpy_result_step_fires (p : RunpyProcess) (r : String)
    (hl : p.listening = true) (hs : p.onResultSet = true) :
    exitCount
      (p.step (RunpyAction.deliver ⟨p.id, ResponseType.RESULT, r⟩)).2 = 1 := by
  simp [RunpyProcess.step, RunpyProcess.deliver, RunpyProcess.eventListener, hl, hs,
    exitCount_runpy_fireOnResult]

/-- An action on an `ImgSummaryProcess` that neither kills it,
re-registers the exit observer, nor delivers a matching `RESULT`
envelope. -/
def ImgAction.benign (id : Nat) : ImgAction → Bool
  | ImgAction.deliver msg => !(msg.id == id && msg.type == ResponseType.RESULT)
  | ImgAction.kill => false
  | ImgAction.onExit => false
  | _ => true

lemma img_benign_step (q : ImgSummaryProcess) (a : ImgAction)
    (hb : ImgAction.benign q.id a = true) :
    exitCount (q.step a).2 = 0 ∧ (q.step a).1.id = q.id ∧
    (q.step a).1.listening = q.listening ∧
    (q.step a).1.onResultSet = q.onResultSet := by
  cases a with
  | deliver msg =>
      by_cases hl : q.listening
      · obtain ⟨i, t, m⟩ := msg
        cases hid : (i != q.id) with
        | true =>
            simp [ImgSummaryProcess.step, ImgSummaryProcess.deliver,
              ImgSummaryProcess.eventListener, hl, hid, exitCount]
        | false =>
            have hieq : i = q.id := by
              simpa using hid
            cases t with
            | RESULT =>
                exfalso
                simp [ImgAction.benign, hieq] at hb
            | _ =>
                cases ho : q.onOutputSet <;> cases he : q.onErrorSet <;>
                  simp [ImgSummaryProcess.step, ImgSummaryProcess.deliver,
                    ImgSummaryProcess.eventListener, hl, hid, ho, he,
                    exitCount, Event.isExit]
      · simp [ImgSummaryProcess.step, ImgSummaryProcess.deliver, hl, exitCount]
  | onStdout =>
      by_cases h : q.output != "" <;>
        simp [ImgSummaryProcess.step, ImgSummaryProcess.onStdout, h,
          exitCount, Event.isExit]
  | onStderr =>
      by_cases h : q.error != "" <;>
        simp [ImgSummaryProcess.step, ImgSummaryProcess.onStderr, h,
          exitCount, Event.isExit]
  | kill => simp [ImgAction.benign] at hb
  | onExit => simp [ImgAction.benign] at hb

lemma img_benign_run (q : ImgSummaryProcess) (as : List ImgAction)
    (hb : ∀ a ∈ as, ImgAction.benign q.id a = true) :
    exitCount (q.run as).2 = 0 ∧ (q.run as).1.id = q.id ∧
    (q.run as).1.listening = q.listening ∧
    (q.run as).1.onResultSet = q.onResultSet := by
  induction as generalizing q with
  | nil => exact ⟨rfl, rfl, rfl, rfl⟩
  | cons a as ih =>
      obtain ⟨h1, h2, h3, h4⟩ := img_benign_step q a (hb a (List.mem_cons_self a as))
      have htail := ih (q.step a).1
        (fun b hbmem => h2 ▸ hb b (List.mem_cons_of_mem a hbmem))
      refine ⟨?_, ?_, ?_, ?_⟩
      · simp [ImgSummaryProcess.run, exitCount_append, h1, htail.1]
      · simpa [ImgSummaryProcess.run, h2] using htail.2.1.trans h2
      · simpa [ImgSummaryProcess.run, h3] using htail.2.2.1.trans h3
      · simpa [ImgSummaryProcess.run, h4] using htail.2.2.2.trans h4

lemma img_run_append (q : ImgSummaryProcess) (as bs : List ImgAction) :
    q.run (as ++ bs) =
      (((q.run as).1.run bs).1, (q.run as).2 ++ ((q.run as).1.run bs).2) := by
  induction as generalizing q with
  | nil => simp [ImgSummaryProcess.run]
  | cons a as ih => simp [ImgSummaryProcess.run, ih]

lemma img_result_step_fires (q : ImgSummaryProcess) (r : String)
    (hl : q.listening = true) (hs : q.onResultSet = true) :
    exitCount
      (q.step (ImgAction.deliver ⟨q.id, ResponseType.RESULT, r⟩)).2 = 1 := by
  simp [ImgSummaryProcess.step, ImgSummaryProcess.deliver,
    ImgSummaryProcess.eventListener, hl, hs, exitCount_img_fireOnResult]

/-! ### Claim theorems -/

/-- Claim C1: delivering a response envelope tagged with a correlation id
different from the process's own id causes no state change and no observer
invocation, for both the run-program and the image-summary variant. -/
theorem C1_foreign_id_ignored (p : RunpyProcess) (q : ImgSummaryProcess)
    (msg msg' : PyodideWorkerResponse)
    (hp : msg.id ≠ p.id) (hq : msg'.id ≠ q.id) :
    p.deliver msg = (p, []) ∧ q.deliver msg' = (q, []) := by
  constructor
  · have hb : (msg.id != p.id) = true := by simpa using hp
    by_cases hl : p.listening <;>
      simp [RunpyProcess.deliver, RunpyProcess.eventListener, hb, hl]
  · have hb : (msg'.id != q.id) = true := by simpa using hq
    by_cases hl : q.listening <;>
      simp [ImgSummaryProcess.deliver, ImgSummaryProcess.eventListener, hb, hl]

/-- Witness for C1: a concrete envelope tagged 1 delivered to processes
holding id 0. -/
theorem C1_foreign_id_ignored_witness :
    (RunpyProcess.create 0).deliver ⟨1, ResponseType.STDOUT, "x"⟩ =
      (RunpyProcess.create 0, []) ∧
    (ImgSummaryProcess.create 0).deliver ⟨1, ResponseType.STDOUT, "x"⟩ =
      (ImgSummaryProcess.create 0, []) :=
  C1_foreign_id_ignored (RunpyProcess.create 0) (ImgSummaryProcess.create 0)
    ⟨1, ResponseType.STDOUT, "x"⟩ ⟨1, ResponseType.STDOUT, "x"⟩
    (by decide) (by decide)

/-- Claim C2: for the run-program variant, stdout/stderr envelopes only
append to the internal buffers and produce no observer call; observer
events occur only in steps that also invoke the exit observer, and the
`RESULT` step delivers the buffered stdout then stderr immediately before
the exit callback.  For the image-summary variant every chunk is forwarded
immediately to a registered observer, and registering an observer on a
non-empty buffer replays the buffer at once (an empty buffer replays
nothing). -/
theorem C2_output_buffering_asymmetry :
    (∀ p : RunpyProcess, ∀ msg : PyodideWorkerResponse, p.listening = true →
        msg.id = p.id → msg.type = ResponseType.STDOUT →
        p.deliver msg = ({ p with output := p.output ++ msg.msg }, [])) ∧
    (∀ p : RunpyProcess, ∀ msg : PyodideWorkerResponse, p.listening = true →
        msg.id = p.id → msg.type = ResponseType.STDERR →
        p.deliver msg = ({ p with error := p.error ++ msg.msg }, [])) ∧
    (∀ p : RunpyProcess, ∀ a : RunpyAction, (p.step a).2 ≠ [] →
        ∃ c : ExitCode, ∃ r : String, Event.exitCall c r ∈ (p.step a).2) ∧
    (∀ p : RunpyProcess, ∀ msg : PyodideWorkerResponse, p.listening = true →
        msg.id = p.id → msg.type = ResponseType.RESULT → p.onResultSet = true →
        p.onOutputSet = true → p.onErrorSet = true →
        (p.deliver msg).2 = [Event.outputCall p.output, Event.errorCall p.error,
          Event.exitCall (if msg.msg != "" then ExitCode.num 0 else ExitCode.null)
            msg.msg]) ∧
    (∀ q : ImgSummaryProcess, ∀ msg : PyodideWorkerResponse, q.listening = true →
        msg.id = q.id → msg.type = ResponseType.STDOUT → q.onOutputSet = true →
        q.deliver msg = ({ q with output := q.output ++ msg.msg },
          [Event.outputCall msg.msg])) ∧
    (∀ q : ImgSummaryProcess, ∀ msg : PyodideWorkerResponse, q.listening = true →
        msg.id = q.id → msg.type = ResponseType.STDERR → q.onErrorSet = true →
        q.deliver msg = ({ q with error := q.error ++ msg.msg },
          [Event.errorCall msg.msg])) ∧
    (∀ q : ImgSummaryProcess, q.output ≠ "" →
        (q.onStdout).2 = [Event.outputCall q.output]) ∧
    (∀ q : ImgSummaryProcess, q.output = "" → (q.onStdout).2 = []) ∧
    (∀ q : ImgSummaryProcess, q.error ≠ "" →
        (q.onStderr).2 = [Event.errorCall q.error]) ∧
    (∀ q : ImgSummaryProcess, q.error = "" → (q.onStderr).2 = []) := by
  refine ⟨?_, ?_, ?_, ?_, ?_, ?_, ?_, ?_, ?_, ?_⟩
  · intro p msg hl hid hty
    obtain ⟨i, t, m⟩ := msg
    simp only at hid hty
    subst hid; subst hty
    simp [RunpyProcess.deliver, RunpyProcess.eventListener, hl]
  · intro p msg hl hid hty
    obtain ⟨i, t, m⟩ := msg
    simp only at hid hty
    subst hid; subst hty
    simp [RunpyProcess.deliver, RunpyProcess.eventListener, hl]
  · intro p a hne
    rcases runpy_step_events p a with h | ⟨p', s, h⟩
    · exact absurd h hne
    · exact ⟨(if s != "" then ExitCode.num 0 else ExitCode.null), s,
        h ▸ exitCall_mem_runpy_fireOnResult p' s⟩
  · intro p msg hl hid hty hs ho he
    obtain ⟨i, t, m⟩ := msg
    simp only at hid hty
    subst hid; subst hty
    simp [RunpyProcess.deliver, RunpyProcess.eventListener, hl, hs,
      RunpyProcess.fireOnResult, ho, he]
  · intro q msg hl hid hty ho
    obtain ⟨i, t, m⟩ := msg
    simp only at hid hty
    subst hid; subst hty
    simp [ImgSummaryProcess.deliver, ImgSummaryProcess.eventListener, hl, ho]
  · intro q msg hl hid hty he
    obtain ⟨i, t, m⟩ := msg
    simp only at hid hty
    subst hid; subst hty
    simp [ImgSummaryProcess.deliver, ImgSummaryProcess.eventListener, hl, he]
  · intro q h
    simp [ImgSummaryProcess.onStdout, h]
  · intro q h
    simp [ImgSummaryProcess.onStdout, h]
  · intro q h
    simp [ImgSummaryProcess.onStderr, h]
  · intro q h
    simp [ImgSummaryProcess.onStderr, h]

/-- Witness for C2 at concrete states: a stdout chunk buffered silently by
the run-program variant, forwarded immediately by the image-summary
variant, and replayed on registration from non-empty stdout and stderr
buffers. -/
theorem C2_output_buffering_asymmetry_witness :
    (RunpyProcess.create 0).deliver ⟨0, ResponseType.STDOUT, "a"⟩ =
      ({ RunpyProcess.create 0 with output := "" ++ "a" }, []) ∧
    (((ImgSummaryProcess.create 0).onStdout).1).deliver
        ⟨0, ResponseType.STDOUT, "a"⟩ =
      ({ ((ImgSummaryProcess.create 0).onStdout).1 with output := "" ++ "a" },
        [Event.outputCall "a"]) ∧
    (((((ImgSummaryProcess.create 0).deliver
        ⟨0, ResponseType.STDOUT, "a"⟩).1).onStdout).2 =
      [Event.outputCall ("" ++ "a")]) ∧
    (((((ImgSummaryProcess.create 0).deliver
        ⟨0, ResponseType.EXCEPTION, "e"⟩).1).onStderr).2 =
      [Event.errorCall ("" ++ "e")]) :=
  ⟨C2_output_buffering_asymmetry.1 (RunpyProcess.create 0)
      ⟨0, ResponseType.STDOUT, "a"⟩ rfl rfl rfl,
   C2_output_buffering_asymmetry.2.2.2.2.1 (((ImgSummaryProcess.create 0).onStdout).1)
      ⟨0, ResponseType.STDOUT, "a"⟩ rfl rfl rfl (by decide),
   C2_output_buffering_asymmetry.2.2.2.2.2.2.1
      (((ImgSummaryProcess.create 0).deliver ⟨0, ResponseType.STDOUT, "a"⟩).1)
      (by decide),
   C2_output_buffering_asymmetry.2.2.2.2.2.2.2.2.1
      (((ImgSummaryProcess.create 0).deliver ⟨0, ResponseType.EXCEPTION, "e"⟩).1)
      (by decide)⟩

/-- Counterexample to C3: a run-program process that received a `RESULT`
envelope with empty text is terminal with stored result `""`, yet a
subsequent `onExit` registration invokes nothing, because the source
checks JS truthiness (`if (this.result)`), which is false for `""`. -/
theorem C3_counterexample :
    ((((RunpyProcess.create 0).deliver ⟨0, ResponseType.RESULT, ""⟩).1).result
        = some "") ∧
    (((((RunpyProcess.create 0).deliver ⟨0, ResponseType.RESULT, ""⟩).1).onExit).2
        = []) := by
  constructor
  · rfl
  · rfl

/-- Claim C3 as amended: for either variant, `setExitObserver` after
termination fires synchronously with the stored terminal result provided
that result is non-empty; a stored empty-string terminal result fires
nothing at registration in either variant (the run-program variant fires
the empty text only when the process was killed); and in either variant a
callback registered before termination fires exactly once, at the moment
the terminal `RESULT` envelope arrives, and never before. -/
theorem C3_amended_exit_registration :
    (∀ p : RunpyProcess, ∀ r : String, p.result = some r → r ≠ "" →
        p.onExit = ({ p with onResultSet := true },
          RunpyProcess.fireOnResult { p with onResultSet := true } r)) ∧
    (∀ q : ImgSummaryProcess, ∀ r : String, q.result = some r → r ≠ "" →
        q.onExit = ({ q with onResultSet := true },
          ImgSummaryProcess.fireOnResult r)) ∧
    (∀ p : RunpyProcess, p.result = some "" → p.killed = false →
        (p.onExit).2 = []) ∧
    (∀ q : ImgSummaryProcess, q.result = some "" → (q.onExit).2 = []) ∧
    (∀ p : RunpyProcess, ∀ as : List RunpyAction, ∀ r : String,
        p.onResultSet = true → p.listening = true →
        (∀ a ∈ as, RunpyAction.benign p.id a = true) →
        exitCount (p.run as).2 = 0 ∧
        exitCount (p.run
          (as ++ [RunpyAction.deliver ⟨p.id, ResponseType.RESULT, r⟩])).2 = 1) ∧
    (∀ q : ImgSummaryProcess, ∀ as : List ImgAction, ∀ r : String,
        q.onResultSet = true → q.listening = true →
        (∀ a ∈ as, ImgAction.benign q.id a = true) →
        exitCount (q.run as).2 = 0 ∧
        exitCount (q.run
          (as ++ [ImgAction.deliver ⟨q.id, ResponseType.RESULT, r⟩])).2 = 1) := by
  refine ⟨?_, ?_, ?_, ?_, ?_, ?_⟩
  · intro p r hres hne
    have ht : resultTruthy (some r) = true := by
      simp [resultTruthy, hne]
    simp [RunpyProcess.onExit, hres, ht]
  · intro q r hres hne
    have ht : resultTruthy (some r) = true := by
      simp [resultTruthy, hne]
    simp [ImgSummaryProcess.onExit, hres, ht]
  · intro p hres hkf
    simp [RunpyProcess.onExit, hres, hkf, resultTruthy]
  · intro q hres
    simp [ImgSummaryProcess.onExit, hres, resultTruthy]
  · intro p as r hs hl hb
    have hrun := runpy_benign_run p as hb
    constructor
    · exact hrun.1
    · rw [runpy_run_append, exitCount_append, hrun.1]
      have hfin := runpy_result_step_fires ((p.run as).1) r
        (hrun.2.2.1.trans hl) (hrun.2.2.2.trans hs)
      rw [hrun.2.1] at hfin
      simpa [RunpyProcess.run, exitCount_append] using hfin
  · intro q as r hs hl hb
    have hrun := img_benign_run q as hb
    constructor
    · exact hrun.1
    · rw [img_run_append, exitCount_append, hrun.1]
      have hfin := img_result_step_fires ((q.run as).1) r
        (hrun.2.2.1.trans hl) (hrun.2.2.2.trans hs)
      rw [hrun.2.1] at hfin
      simpa [ImgSummaryProcess.run, exitCount_append] using hfin

/-- Witness for C3 as amended: for each variant, a non-empty stored result
fires at registration, a stored empty-string result fires nothing, and an
observer registered before termination fires exactly once, exactly when
the terminal envelope arrives. -/
theorem C3_amended_exit_registration_witness :
    ((((RunpyProcess.create 0).deliver ⟨0, ResponseType.RESULT, "r"⟩).1).onExit =
      ({ ((RunpyProcess.create 0).deliver ⟨0, ResponseType.RESULT, "r"⟩).1 with
          onResultSet := true },
        RunpyProcess.fireOnResult
          { ((RunpyProcess.create 0).deliver ⟨0, ResponseType.RESULT, "r"⟩).1 with
              onResultSet := true } "r")) ∧
    ((((ImgSummaryProcess.create 0).deliver ⟨0, ResponseType.RESULT, "r"⟩).1).onExit =
      ({ ((ImgSummaryProcess.create 0).deliver ⟨0, ResponseType.RESULT, "r"⟩).1 with
          onResultSet := true },
        ImgSummaryProcess.fireOnResult "r")) ∧
    (((((RunpyProcess.create 0).deliver ⟨0, ResponseType.RESULT, ""⟩).1).onExit).2
      = []) ∧
    (((((ImgSummaryProcess.create 0).deliver ⟨0, ResponseType.RESULT, ""⟩).1).onExit).2
      = []) ∧
    (exitCount ((((RunpyProcess.create 0).onExit).1).run
        [RunpyAction.deliver ⟨1, ResponseType.STDOUT, "o"⟩]).2 = 0 ∧
     exitCount ((((RunpyProcess.create 0).onExit).1).run
        ([RunpyAction.deliver ⟨1, ResponseType.STDOUT, "o"⟩] ++
          [RunpyAction.deliver ⟨0, ResponseType.RESULT, "r"⟩])).2 = 1) ∧
    (exitCount ((((ImgSummaryProcess.create 0).onExit).1).run
        [ImgAction.onStdout]).2 = 0 ∧
     exitCount ((((ImgSummaryProcess.create 0).onExit).1).run
        ([ImgAction.onStdout] ++
          [ImgAction.deliver ⟨0, ResponseType.RESULT, "r"⟩])).2 = 1) :=
  ⟨C3_amended_exit_registration.1
      (((RunpyProcess.create 0).deliver ⟨0, ResponseType.RESULT, "r"⟩).1) "r"
      (by decide) (by decide),
   C3_amended_exit_registration.2.1
      (((ImgSummaryProcess.create 0).deliver ⟨0, ResponseType.RESULT, "r"⟩).1) "r"
      (by decide) (by decide),
   C3_amended_exit_registration.2.2.1
      (((RunpyProcess.create 0).deliver ⟨0, ResponseType.RESULT, ""⟩).1)
      (by decide) (by decide),
   C3_amended_exit_registration.2.2.2.1
      (((ImgSummaryProcess.create 0).deliver ⟨0, ResponseType.RESULT, ""⟩).1)
      (by decide),
   C3_amended_exit_registration.2.2.2.2.1 (((RunpyProcess.create 0).onExit).1)
      [RunpyAction.deliver ⟨1, ResponseType.STDOUT, "o"⟩] "r"
      (by decide) (by decide) (by decide),
   C3_amended_exit_registration.2.2.2.2.2 (((ImgSummaryProcess.create 0).onExit).1)
      [ImgAction.onStdout] "r"
      (by decide) (by decide) (by decide)⟩

/-- Claim C4: killing a run-program process before any `RESULT` arrived,
with an exit observer registered, invokes that observer exactly once with
the `null` failure status and empty result text; killing an image-summary
process invokes nothing, ever. -/
theorem C4_kill_observer (p : RunpyProcess) (q : ImgSummaryProcess)
    (hs : p.onResultSet = true) (_hr : p.result = none) :
    (p.kill).2 = RunpyProcess.fireOnResult
      { p with killed := true, listening := false } "" ∧
    exitCount (p.kill).2 = 1 ∧
    Event.exitCall ExitCode.null "" ∈ (p.kill).2 ∧
    (q.kill).2 = [] := by
  have h1 : (p.kill).2 = RunpyProcess.fireOnResult
      { p with killed := true, listening := false } "" := by
    simp [RunpyProcess.kill, hs]
  refine ⟨h1, ?_, ?_, rfl⟩
  · rw [h1]; exact exitCount_runpy_fireOnResult _ ""
  · rw [h1]
    simpa using exitCall_mem_runpy_fireOnResult
      { p with killed := true, listening := false } ""

/-- Witness for C4: a freshly created run-program process with an exit
observer registered, then killed; and a fresh image-summary process
killed. -/
theorem C4_kill_observer_witness :
    exitCount (((((RunpyProcess.create 0).onExit).1)).kill).2 = 1 ∧
    Event.exitCall ExitCode.null "" ∈ (((((RunpyProcess.create 0).onExit).1)).kill).2 ∧
    ((ImgSummaryProcess.create 0).kill).2 = [] :=
  ⟨(C4_kill_observer (((RunpyProcess.create 0).onExit).1) (ImgSummaryProcess.create 0)
      (by decide) (by decide)).2.1,
   (C4_kill_observer (((RunpyProcess.create 0).onExit).1) (ImgSummaryProcess.create 0)
      (by decide) (by decide)).2.2.1,
   (C4_kill_observer (((RunpyProcess.create 0).onExit).1) (ImgSummaryProcess.create 0)
      (by decide) (by decide)).2.2.2⟩

/-- Counterexample to C5: an image-summary process that received a
non-empty `RESULT` before being killed still fires an exit observer
registered after the kill — `kill` only deregisters the listener and does
not clear the stored result, which `onExit` replays. -/
theorem C5_counterexample :
    (((((ImgSummaryProcess.create 0).deliver
        ⟨0, ResponseType.RESULT, "r"⟩).1).kill).1).onExit =
      ((⟨0, true, false, false, some "r", "", "", false⟩ : ImgSummaryProcess),
        [Event.exitCall (ExitCode.num 0) "r"]) := by
  rfl

/-- Claim C5 as amended: `kill` deregisters the listener, stores nothing
and fires nothing; an exit observer registered after `kill` never fires in
any continuation, provided no non-empty `RESULT` had been received before
the kill; if one had, `onExit` after `kill` fires synchronously with that
stored result. -/
theorem C5_amended_kill_no_fire :
    (∀ q : ImgSummaryProcess, (q.kill).1.listening = false ∧
        (q.kill).1.result = q.result ∧ (q.kill).2 = []) ∧
    (∀ q : ImgSummaryProcess, ∀ bs : List ImgAction, q.listening = false →
        resultTruthy q.result = false → exitCount (q.run bs).2 = 0) ∧
    (∀ q : ImgSummaryProcess, ∀ r : String, q.result = some r → r ≠ "" →
        ((q.kill).1.onExit).2 = ImgSummaryProcess.fireOnResult r) := by
  refine ⟨?_, ?_, ?_⟩
  · intro q
    exact ⟨rfl, rfl, rfl⟩
  · intro q bs hl hr
    exact img_dead_run q bs hl hr
  · intro q r hres hne
    have ht : resultTruthy (some r) = true := by
      simp [resultTruthy, hne]
    simp [ImgSummaryProcess.kill, ImgSummaryProcess.onExit, hres, ht]

/-- Witness for C5 as amended: a killed image-summary process with no
stored result never fires across a continuation that registers the exit
observer; one with a stored non-empty result fires it at registration. -/
theorem C5_amended_kill_no_fire_witness :
    exitCount ((((ImgSummaryProcess.create 0).kill).1).run
      [ImgAction.onStdout, ImgAction.onExit,
        ImgAction.deliver ⟨0, ResponseType.RESULT, "r"⟩, ImgAction.onExit]).2 = 0 ∧
    (((((ImgSummaryProcess.create 0).deliver
        ⟨0, ResponseType.RESULT, "r"⟩).1).kill).1.onExit).2 =
      ImgSummaryProcess.fireOnResult "r" :=
  ⟨C5_amended_kill_no_fire.2.1 (((ImgSummaryProcess.create 0).kill).1)
      [ImgAction.onStdout, ImgAction.onExit,
        ImgAction.deliver ⟨0, ResponseType.RESULT, "r"⟩, ImgAction.onExit]
      (by decide) (by decide),
   C5_amended_kill_no_fire.2.2
      (((ImgSummaryProcess.create 0).deliver ⟨0, ResponseType.RESULT, "r"⟩).1) "r"
      (by decide) (by decide)⟩

/-- Counterexample to C6: after a run-program process receives its
terminal `RESULT`, its listener is still registered — a second `RESULT`
tagged with its id re-invokes the exit observer and overwrites the stored
result. -/
theorem C6_counterexample :
    (((((((RunpyProcess.create 0).onExit).1).deliver
        ⟨0, ResponseType.RESULT, "a"⟩).1).deliver
        ⟨0, ResponseType.RESULT, "b"⟩).2 =
      [Event.exitCall (ExitCode.num 0) "b"]) ∧
    (((((((RunpyProcess.create 0).onExit).1).deliver
        ⟨0, ResponseType.RESULT, "a"⟩).1).deliver
        ⟨0, ResponseType.RESULT, "b"⟩).1.result = some "b") := by
  constructor
  · rfl
  · rfl

/-- Claim C6 as amended: only `kill` deregisters the channel listener —
after `kill` no envelope mutates state or fires an observer; receiving a
`RESULT` leaves the listener registered, so later matching envelopes are
still processed (as the counterexample shows). -/
theorem C6_amended_only_kill_deregisters :
    (∀ p : RunpyProcess, ∀ msg : PyodideWorkerResponse,
        ((p.kill).1).deliver msg = ((p.kill).1, [])) ∧
    (∀ q : ImgSummaryProcess, ∀ msg : PyodideWorkerResponse,
        ((q.kill).1).deliver msg = ((q.kill).1, [])) ∧
    (∀ p : RunpyProcess, ∀ msg : PyodideWorkerResponse,
        ((p.deliver msg).1).listening = p.listening) ∧
    (∀ q : ImgSummaryProcess, ∀ msg : PyodideWorkerResponse,
        ((q.deliver msg).1).listening = q.listening) := by
  refine ⟨?_, ?_, ?_, ?_⟩
  · intro p msg
    simp [RunpyProcess.kill, RunpyProcess.deliver]
  · intro q msg
    simp [ImgSummaryProcess.kill, ImgSummaryProcess.deliver]
  · intro p msg
    by_cases hl : p.listening
    · obtain ⟨i, t, m⟩ := msg
      cases hid : (i != p.id) with
      | true =>
          simp [RunpyProcess.deliver, RunpyProcess.eventListener, hl, hid]
      | false =>
          cases t <;>
            simp [RunpyProcess.deliver, RunpyProcess.eventListener, hl, hid]
    · simp [RunpyProcess.deliver, hl]
  · intro q msg
    by_cases hl : q.listening
    · obtain ⟨i, t, m⟩ := msg
      cases hid : (i != q.id) with
      | true =>
          simp [ImgSummaryProcess.deliver, ImgSummaryProcess.eventListener, hl, hid]
      | false =>
          cases t <;>
            simp [ImgSummaryProcess.deliver, ImgSummaryProcess.eventListener, hl, hid]
    · simp [ImgSummaryProcess.deliver, hl]

/-- Claim C7: with the readiness gate closed, both factory operations
return the inert `SynthProcess` placeholder, post no request envelope and
register no listener, and all placeholder operations do nothing and never
invoke an observer. -/
theorem C7_gate_closed_inert :
    (∀ g : GlobalState, ∀ s : String, g.pyodideLoaded = false →
        runProgram g s = (ProcessHandle.synth, g, [])) ∧
    (∀ g : GlobalState, ∀ s : String, ∀ l : Nat, ∀ v : String,
        g.pyodideLoaded = false →
        runImgSummary g s l v = (ProcessHandle.synth, g, [])) ∧
    SynthProcess.onStdout () = ((), []) ∧
    SynthProcess.onStderr () = ((), []) ∧
    SynthProcess.kill () = ((), []) ∧
    SynthProcess.onExit () = ((), []) := by
  refine ⟨?_, ?_, rfl, rfl, rfl, rfl⟩
  · intro g s h
    simp [runProgram, h]
  · intro g s l v h
    simp [runImgSummary, h]

/-- Witness for C7: the factories called with the gate closed. -/
theorem C7_gate_closed_inert_witness :
    runProgram ⟨false, 5⟩ "x" = (ProcessHandle.synth, ⟨false, 5⟩, []) ∧
    runImgSummary ⟨false, 5⟩ "x" 3 "v" = (ProcessHandle.synth, ⟨false, 5⟩, []) :=
  ⟨C7_gate_closed_inert.1 ⟨false, 5⟩ "x" rfl,
   C7_gate_closed_inert.2.1 ⟨false, 5⟩ "x" 3 "v" rfl⟩

/-- Claim C8: for the image-summary variant a matching `Exception`
envelope only appends to the stderr buffer (forwarding it to a registered
stderr observer) and never stores a result or fires the exit observer;
`RESULT` is the only terminus, so a history with no `RESULT` delivery
leaves the process unresolved (no stored result, no exit call) forever. -/
theorem C8_exception_is_stderr_only (q : ImgSummaryProcess)
    (msg : PyodideWorkerResponse) (idv : Nat) (as : List ImgAction)
    (hl : q.listening = true) (hid : msg.id = q.id)
    (hty : msg.type = ResponseType.EXCEPTION)
    (ha : ∀ a ∈ as, ∀ m : PyodideWorkerResponse,
      a = ImgAction.deliver m → m.type ≠ ResponseType.RESULT) :
    q.deliver msg = ({ q with error := q.error ++ msg.msg },
      if q.onErrorSet then [Event.errorCall msg.msg] else []) ∧
    ((ImgSummaryProcess.create idv).run as).1.result = none ∧
    exitCount ((ImgSummaryProcess.create idv).run as).2 = 0 := by
  refine ⟨?_, ?_, ?_⟩
  · obtain ⟨i, t, m⟩ := msg
    simp only at hid hty
    subst hid; subst hty
    by_cases he : q.onErrorSet <;>
      simp [ImgSummaryProcess.deliver, ImgSummaryProcess.eventListener, hl, he]
  · exact (img_noResult_run (ImgSummaryProcess.create idv) as ha rfl).1
  · exact (img_noResult_run (ImgSummaryProcess.create idv) as ha rfl).2

/-- Witness for C8: a concrete exception envelope delivered to a process
with a registered stderr observer, and a concrete `RESULT`-free history
ending with an `onExit` registration that never fires. -/
theorem C8_exception_is_stderr_only_witness :
    ((((ImgSummaryProcess.create 0).onStderr).1).deliver
        ⟨0, ResponseType.EXCEPTION, "boom"⟩ =
      ({ ((ImgSummaryProcess.create 0).onStderr).1 with error := "" ++ "boom" },
        [Event.errorCall "boom"])) ∧
    ((ImgSummaryProcess.create 0).run
        [ImgAction.deliver ⟨0, ResponseType.EXCEPTION, "boom"⟩,
          ImgAction.onExit]).1.result = none ∧
    exitCount ((ImgSummaryProcess.create 0).run
        [ImgAction.deliver ⟨0, ResponseType.EXCEPTION, "boom"⟩,
          ImgAction.onExit]).2 = 0 := by
  have h := C8_exception_is_stderr_only (((ImgSummaryProcess.create 0).onStderr).1)
    ⟨0, ResponseType.EXCEPTION, "boom"⟩ 0
    [ImgAction.deliver ⟨0, ResponseType.EXCEPTION, "boom"⟩, ImgAction.onExit]
    rfl rfl rfl
    (by
      intro a hmem m heq
      simp only [List.mem_cons, List.not_mem_nil, or_false] at hmem
      rcases hmem with h | h
      · subst h
        injection heq with h2
        subst h2
        decide
      · subst h
        simp at heq)
  refine ⟨?_, h.2.1, h.2.2⟩
  simpa using h.1

/-- Claim C9: whenever an exit observer is invoked as `fn(exitStatus,
resultText)`, the status is the success marker `0` exactly when the text
is non-empty; on failure the run-program variant passes `null` while the
image-summary variant passes the number `1`. -/
theorem C9_exit_status_encoding (p : RunpyProcess) (q : ImgSummaryProcess)
    (a : RunpyAction) (b : ImgAction) (c c' : ExitCode) (r r' : String)
    (hp : Event.exitCall c r ∈ (p.step a).2)
    (hq : Event.exitCall c' r' ∈ (q.step b).2) :
    ((c = ExitCode.num 0 ↔ r ≠ "") ∧ (r = "" → c = ExitCode.null)) ∧
    ((c' = ExitCode.num 0 ↔ r' ≠ "") ∧ (r' = "" → c' = ExitCode.num 1)) := by
  constructor
  · rcases runpy_step_events p a with h | ⟨p', s, h⟩
    · rw [h] at hp; cases hp
    · rw [h] at hp
      obtain ⟨hc, hrs⟩ := runpy_fire_exit_eq p' s c r hp
      subst hrs
      by_cases hs : r = ""
      · subst hs
        simp at hc
        simp [hc]
      · simp [hs] at hc
        simp [hc, hs]
  · rcases img_step_events q b with h | ⟨s, h⟩
    · exact absurd h (exitCount_pos_of_mem _ c' r' hq)
    · rw [h] at hq
      obtain ⟨hc, hrs⟩ := img_fire_exit_eq s c' r' hq
      subst hrs
      by_cases hs : r' = ""
      · subst hs
        simp at hc
        simp [hc]
      · simp [hs] at hc
        simp [hc, hs]

/-- Witness for C9: the exit calls produced by killing a run-program
process with a registered observer, and by a `RESULT` delivery to an
image-summary process with a registered observer. -/
theorem C9_exit_status_encoding_witness :
    ((ExitCode.null = ExitCode.num 0 ↔ ("" : String) ≠ "") ∧
      (("" : String) = "" → ExitCode.null = ExitCode.null)) ∧
    ((ExitCode.num 0 = ExitCode.num 0 ↔ ("r" : String) ≠ "") ∧
      (("r" : String) = "" → ExitCode.num 0 = ExitCode.num 1)) :=
  C9_exit_status_encoding (((RunpyProcess.create 0).onExit).1)
    (((ImgSummaryProcess.create 0).onExit).1)
    RunpyAction.kill (ImgAction.deliver ⟨0, ResponseType.RESULT, "r"⟩)
    ExitCode.null (ExitCode.num 0) "" "r" (by decide) (by decide)

/-- Claim C10: for the run-program variant, if the process was killed and
no `RESULT` was ever received, registering an exit observer afterwards
fires it synchronously with the `null` failure status and empty text,
delivering the buffered stdout/stderr to any registered output observers
first (the event list is exactly the stored wrapper's firing on `""`). -/
theorem C10_onExit_after_kill (p : RunpyProcess)
    (hk : p.killed = true) (hr : p.result = none) :
    p.onExit = ({ p with onResultSet := true },
      RunpyProcess.fireOnResult { p with onResultSet := true } "") ∧
    Event.exitCall ExitCode.null "" ∈ (p.onExit).2 ∧
    exitCount (p.onExit).2 = 1 := by
  have h1 : p.onExit = ({ p with onResultSet := true },
      RunpyProcess.fireOnResult { p with onResultSet := true } "") := by
    simp [RunpyProcess.onExit, resultTruthy, hr, hk]
  refine ⟨h1, ?_, ?_⟩
  · rw [h1]
    simpa using exitCall_mem_runpy_fireOnResult { p with onResultSet := true } ""
  · rw [h1]
    exact exitCount_runpy_fireOnResult _ ""

/-- Witness for C10: a run-program process with stdout/stderr observers
and buffered output, killed before any result, then `onExit` registered —
the buffers flush and the callback fires once with `null` and `""`. -/
theorem C10_onExit_after_kill_witness :
    Event.exitCall ExitCode.null "" ∈
      ((((((((RunpyProcess.create 0).onStdout).deliver
        ⟨0, ResponseType.STDOUT, "out"⟩).1).kill).1)).onExit).2 ∧
    exitCount
      ((((((((RunpyProcess.create 0).onStdout).deliver
        ⟨0, ResponseType.STDOUT, "out"⟩).1).kill).1)).onExit).2 = 1 :=
  ⟨(C10_onExit_after_kill
      (((((((RunpyProcess.create 0).onStdout).deliver
        ⟨0, ResponseType.STDOUT, "out"⟩).1).kill).1))
      (by decide) (by decide)).2.1,
   (C10_onExit_after_kill
      (((((((RunpyProcess.create 0).onStdout).deliver
        ⟨0, ResponseType.STDOUT, "out"⟩).1).kill).1))
      (by decide) (by decide)).2.2⟩
